import Mathlib

/-!
Shallow embedding of the tinkerforge2mqtt Device Bridge Core.

The definitions below translate the relevant parts of the repository:
* `cli_app/publish.py`: `connect_with_retry`, `connect_mqtt_with_retry`
  (retry loop with exponential backoff) and the `publish_loop` reconnect
  state machine;
* `device_map/bricklet_dmx_light.py`: the DMX light handler
  (`switch_callback`, `rgb_callback`, `brightness_callback`,
  `set_rgb_fixture`) acting on the 512-slot DMX frame buffer;
* `device_map/bricklet_lcd_display.py`: the LCD text display handler
  (`display_callback`).

External transports (the Tinkerforge IP connection, the MQTT client and the
physical devices) are modelled as oracles and event logs: a success oracle
for connection attempts, a failure oracle for LCD hardware writes, and lists
recording the hardware writes and MQTT publishes a handler performs.
Numeric state is modelled with `ℕ`/`ℤ`/`ℚ`; the Python float expressions
involved (`delay * 1.5`, `min(delay * 1.5, 60.0)`, `int(v * b / 100.0)` for
nonnegative integers `v`, `b`) are exact at the granularity these claims
need, so `ℚ` multiplication and `ℕ` floor division model them.
-/

/-- Backoff update from `connect_with_retry` / `connect_mqtt_with_retry`
(`publish.py` lines 82 and 119): `delay = min(delay * 1.5, 60.0)`. -/
def nextDelay (d : ℚ) : ℚ := min (d * 1.5) 60

/-- `sleptDelay d0 k` is the delay slept before the `(k+1)`-th retry in
`connect_with_retry` / `connect_mqtt_with_retry` when the initial delay is
`d0`: the code sleeps the current `delay` first (line 79) and applies the
backoff update afterwards (line 82), so the first sleep is `d0` itself. -/
def sleptDelay (d0 : ℚ) : ℕ → ℚ
  | 0 => d0
  | k + 1 => nextDelay (sleptDelay d0 k)

/-- The `while attempt <= max_retries` loop of `connect_with_retry`
(`publish.py` lines 63-84). `ok i` says whether the `i`-th connection
attempt (0-based) succeeds; a failing attempt raises one of the transient
network errors (`TimeoutError`, `socket.timeout`, `ConnectionError`,
`OSError`) caught on line 72. `remaining` is the number of loop iterations
the condition still allows, i.e. `max_retries + 1 - attempt`; when it hits
`0` the code returns `False` (line 76 / line 84). -/
def retryFrom (ok : ℕ → Bool) : ℕ → ℕ → Bool
  | _, 0 => false
  | attempt, remaining + 1 =>
    if ok attempt then true else retryFrom ok (attempt + 1) remaining

/-- `connect_with_retry` with `max_retries = maxRetries` (a bounded run):
starts at `attempt = 0` with `maxRetries + 1` allowed iterations. -/
def connect_with_retry (ok : ℕ → Bool) (maxRetries : ℕ) : Bool :=
  retryFrom ok 0 (maxRetries + 1)

/-- Number of times the bounded `connect_with_retry` loop invokes
`ipcon.connect` (one invocation per loop iteration entered). -/
def retryAttempts (ok : ℕ → Bool) : ℕ → ℕ → ℕ
  | _, 0 => 0
  | attempt, remaining + 1 =>
    if ok attempt then 1 else retryAttempts ok (attempt + 1) remaining + 1

/-- Attempt count of `connect_with_retry ok maxRetries`. -/
def connectAttempts (ok : ℕ → Bool) (maxRetries : ℕ) : ℕ :=
  retryAttempts ok 0 (maxRetries + 1)

/-- Fuel-indexed run of `connect_with_retry` with `max_retries=None`
(`publish.py`): with `max_retries is None` the loop condition is always
true and the `attempt > max_retries` check on line 74 never fires, so the
loop can only exit by returning `True`. `none` means the loop is still
running after `fuel` iterations. -/
def retryNone (ok : ℕ → Bool) : ℕ → ℕ → Option Bool
  | _, 0 => none
  | attempt, fuel + 1 =>
    if ok attempt then some true else retryNone ok (attempt + 1) fuel

/-- MQTT publishes issued by the DMX light handler
(`bricklet_dmx_light.py`): `publish_state_switch`, `publish_state_rgb`,
`publish_state_brightness`. -/
inductive DMXPublish
  | switch (b : Bool)
  | rgb (v : ℕ × ℕ × ℕ)
  | brightness (v : ℕ)
  deriving DecidableEq

/-- Python `int(v * b / 100.0)` for nonnegative integers `v`, `b`
(the brightness scaling in `bricklet_dmx_light.py`, e.g. lines 74-77):
the float quotient is truncated toward zero, which for nonnegative
operands is floor division. -/
def scale (v b : ℕ) : ℕ := v * b / 100

/-- `dmx_frame[0] = r; dmx_frame[1] = g; dmx_frame[2] = b` — the writes to
DMX channels 1, 2, 3 (indices 0, 1, 2) performed by the three Light
callbacks. -/
def set3 (f : List ℕ) (r g b : ℕ) : List ℕ := ((f.set 0 r).set 1 g).set 2 b

/-- State owned by `BrickletDMXMapper` together with its `Light` component:
the 512-slot `dmx_frame`, the component's optional retained states (absent
attributes default via `getattr`: switch defaults to ON, rgb to
`[255, 255, 255]`, brightness to `100`), plus logs of the frames sent with
`device.write_frame` and of the MQTT publishes. -/
structure DMXState where
  dmx_frame : List ℕ
  state_switch : Option Bool
  state_rgb : Option (ℕ × ℕ × ℕ)
  state_brightness : Option ℕ
  writes : List (List ℕ)
  published : List DMXPublish
  deriving DecidableEq

/-- `getattr(component, 'state_switch', component.ON) == component.ON`. -/
def getSwitch (s : DMXState) : Bool := s.state_switch.getD true

/-- `getattr(component, 'state_rgb', [255, 255, 255])`. -/
def getRGB (s : DMXState) : ℕ × ℕ × ℕ := s.state_rgb.getD (255, 255, 255)

/-- `getattr(component, 'state_brightness', 100)`. -/
def getBrightness (s : DMXState) : ℕ := s.state_brightness.getD 100

/-- `BrickletDMXMapper.switch_callback` (`bricklet_dmx_light.py` lines
60-100), with the hardware `write_frame` succeeding: ON restores the frame
channels 1-3 from the retained rgb/brightness, OFF zeroes them; both
branches send the frame, set `state_switch` and publish it. -/
def switch_callback (s : DMXState) (new_state : Bool) : DMXState :=
  if new_state then
    let bri := getBrightness s
    let rgb := getRGB s
    let frame := set3 s.dmx_frame (scale rgb.1 bri) (scale rgb.2.1 bri) (scale rgb.2.2 bri)
    { s with dmx_frame := frame, writes := s.writes ++ [frame],
             state_switch := some true,
             published := s.published ++ [DMXPublish.switch true] }
  else
    let frame := set3 s.dmx_frame 0 0 0
    { s with dmx_frame := frame, writes := s.writes ++ [frame],
             state_switch := some false,
             published := s.published ++ [DMXPublish.switch false] }

/-- `BrickletDMXMapper.rgb_callback` (`bricklet_dmx_light.py` lines
102-137): writes the scaled colour to channels 1-3 and sends the frame only
when the light is on; in both cases sets `state_rgb` and publishes it. -/
def rgb_callback (s : DMXState) (new_state : ℕ × ℕ × ℕ) : DMXState :=
  let is_on := getSwitch s
  if is_on then
    let bri := getBrightness s
    let frame := set3 s.dmx_frame (scale new_state.1 bri) (scale new_state.2.1 bri)
      (scale new_state.2.2 bri)
    { s with dmx_frame := frame, writes := s.writes ++ [frame],
             state_rgb := some new_state,
             published := s.published ++ [DMXPublish.rgb new_state] }
  else
    { s with state_rgb := some new_state,
             published := s.published ++ [DMXPublish.rgb new_state] }

/-- `BrickletDMXMapper.brightness_callback` (`bricklet_dmx_light.py` lines
139-174): scales the retained colour by the new brightness and sends the
frame only when the light is on; in both cases sets `state_brightness` and
publishes it. -/
def brightness_callback (s : DMXState) (new_state : ℕ) : DMXState :=
  let is_on := getSwitch s
  if is_on then
    let rgb := getRGB s
    let frame := set3 s.dmx_frame (scale rgb.1 new_state) (scale rgb.2.1 new_state)
      (scale rgb.2.2 new_state)
    { s with dmx_frame := frame, writes := s.writes ++ [frame],
             state_brightness := some new_state,
             published := s.published ++ [DMXPublish.brightness new_state] }
  else
    { s with state_brightness := some new_state,
             published := s.published ++ [DMXPublish.brightness new_state] }

/-- `BrickletDMXMapper.set_rgb_fixture` (`bricklet_dmx_light.py` lines
189-202): `if 1 <= start_channel <= 510` write `r, g, b` at 1-based
channels `start_channel .. start_channel + 2` (indices `start_channel - 1`,
`start_channel`, `start_channel + 1`) and send the frame; otherwise log the
invalid start channel and do nothing. -/
def set_rgb_fixture (s : DMXState) (start_channel : ℤ) (r g b : ℕ) : DMXState :=
  if 1 ≤ start_channel ∧ start_channel ≤ 510 then
    let i := start_channel.toNat
    let frame := ((s.dmx_frame.set (i - 1) r).set i g).set (i + 1) b
    { s with dmx_frame := frame, writes := s.writes ++ [frame] }
  else
    s

/-- Hardware operations the LCD handler performs on the display:
`device.clear_display()` and `device.write_line(line, col, text)`. -/
inductive LCDOp
  | clear
  | writeLine (line col : ℕ) (text : String)
  deriving DecidableEq

/-- State owned by `BrickletLCD128x64Mapper` together with its `Text`
component: the component's shadow state string, the log of hardware
operations successfully executed on the display, and the log of MQTT
publishes of the shadow state. -/
structure LCDState where
  display_state : String
  hw : List LCDOp
  published : List String
  deriving DecidableEq

/-- Python `new_state.split('\\n')` (`bricklet_lcd_display.py` line 54) at
the code-point level: split on every occurrence of the literal
two-character separator backslash `n`, left to right, keeping empty
pieces (Python `str.split` with an explicit separator). -/
def splitBSn : List Char → List (List Char)
  | [] => [[]]
  | '\\' :: 'n' :: rest => [] :: splitBSn rest
  | c :: rest =>
    match splitBSn rest with
    | [] => [[c]]
    | l :: ls => (c :: l) :: ls

/-- `lines = new_state.split('\\n')` as a list of strings. -/
def displayLines (new_state : String) : List String :=
  (splitBSn new_state.data).map String.mk

/-- Python `line_text[:21]`: the first 21 code points of the line. -/
def truncate21 (line : String) : String := String.mk (line.data.take 21)

/-- The fixed failure message written and published on a hardware write
failure (`bricklet_lcd_display.py` lines 69-70). -/
def failMsg : String := "Fail to write LCD"

/-- The `for line_num, line_text in enumerate(lines[:4])` loop body
(`bricklet_lcd_display.py` lines 60-64): one `write_line(line_num, 0,
line_text[:21])` per non-empty line, empty lines skipped. `n` is the
running `line_num`. -/
def lcdWriteOps : ℕ → List String → List LCDOp
  | _, [] => []
  | n, l :: rest =>
    (if l = "" then [] else [LCDOp.writeLine n 0 (truncate21 l)]) ++ lcdWriteOps (n + 1) rest

/-- The hardware operations attempted inside the `try` block of
`display_callback`, in order: clear the display first, then the line
writes for the first 4 lines. -/
def tryOps (new_state : String) : List LCDOp :=
  LCDOp.clear :: lcdWriteOps 0 ((displayLines new_state).take 4)

/-- Execute hardware operations in order under the failure oracle `fails`
(indexed by the order in which operations are attempted): returns the
operations that executed successfully, whether all of them succeeded, and
the index the next attempted operation would get. The first failing
operation raises, aborting the rest. -/
def runOps (fails : ℕ → Bool) : ℕ → List LCDOp → List LCDOp × Bool × ℕ
  | i, [] => ([], true, i)
  | i, op :: rest =>
    if fails i then ([], false, i + 1)
    else
      let r := runOps fails (i + 1) rest
      (op :: r.1, r.2.1, r.2.2)

/-- `BrickletLCD128x64Mapper.display_callback` (`bricklet_lcd_display.py`
lines 49-73) under the failure oracle `fails`. Success path: all `try`
operations executed, `set_state(new_state)`, then `poll()` publishes the
shadow state. Failure path: the `except` block attempts the recovery write
`write_line(0, 0, 'Fail to write LCD')` (the next attempted hardware
operation); if it succeeds the shadow state is forced to the failure
message and `poll()` publishes it, while if it also raises, the exception
escapes to `print_exception_decorator` before `set_state` and `poll()`
run, so neither the shadow state nor the publish log changes. -/
def display_callback (fails : ℕ → Bool) (s : LCDState) (new_state : String) : LCDState :=
  let r := runOps fails 0 (tryOps new_state)
  if r.2.1 then
    { s with hw := s.hw ++ r.1,
             display_state := new_state,
             published := s.published ++ [new_state] }
  else if fails r.2.2 then
    { s with hw := s.hw ++ r.1 }
  else
    { s with hw := s.hw ++ r.1 ++ [LCDOp.writeLine 0 0 failMsg],
             display_state := failMsg,
             published := s.published ++ [failMsg] }

/-- Observable events of `publish_loop` (`publish.py` lines 124-198) on its
transient-error path: the startup MQTT connection (`connect_mqtt_with_retry`
succeeding, line 139) and `mqtt_client.loop_start()` (line 144), then per
outer iteration a fresh `IPConnection` connected via `connect_with_retry`
(line 153), `ipcon.enumerate()` / `time.sleep(5)` rounds (lines 165-166),
the enumerate call that raises a transient error, `ipcon.disconnect()` in
the cleanup block (line 193, failures swallowed), and `time.sleep(1)`
(line 198). Handles number the `IPConnection` objects in creation order. -/
inductive LoopEvent
  | mqttConnect
  | mqttLoopStart
  | hwConnect (handle : ℕ)
  | enumerate
  | sleepSec (secs : ℕ)
  | enumerateFail
  | hwDisconnect (handle : ℕ)
  deriving DecidableEq

/-- `okCount` successful `ipcon.enumerate(); time.sleep(5)` rounds followed
by the enumerate call that raises the transient error. -/
def enumCycles : ℕ → List LoopEvent
  | 0 => [LoopEvent.enumerateFail]
  | k + 1 => LoopEvent.enumerate :: LoopEvent.sleepSec 5 :: enumCycles k

/-- One iteration of the outer `while True` of `publish_loop` that ends in
a transient transport error: connect a fresh handle, operate until the
error, disconnect the handle (errors swallowed), sleep 1 second. -/
def operateSegment (handle okCount : ℕ) : List LoopEvent :=
  LoopEvent.hwConnect handle ::
    (enumCycles okCount ++ [LoopEvent.hwDisconnect handle, LoopEvent.sleepSec 1])

/-- `iters` outer iterations of `publish_loop` starting with handle `n`;
`errs m` is the number of successful enumerate rounds of the iteration
using handle `m`. -/
def traceFrom (errs : ℕ → ℕ) : ℕ → ℕ → List LoopEvent
  | _, 0 => []
  | n, iters + 1 => operateSegment n (errs n) ++ traceFrom errs (n + 1) iters

/-- The event trace of `publish_loop` over `iters` outer iterations, each
ending in a transient transport error during enumeration (the
KeyboardInterrupt shutdown path is not taken). -/
def publishLoopTrace (errs : ℕ → ℕ) (iters : ℕ) : List LoopEvent :=
  LoopEvent.mqttConnect :: LoopEvent.mqttLoopStart :: traceFrom errs 0 iters

theorem nextDelay_min (a : ℚ) : nextDelay (min a 60) = min (a * 1.5) 60 := by
  unfold nextDelay
  rcases le_total a 60 with h | h
  · rw [min_eq_left h]
  · have h2 : (60 : ℚ) ≤ a * 1.5 := by nlinarith
    rw [min_eq_right h, min_eq_right (by norm_num : (60 : ℚ) ≤ 60 * 1.5), min_eq_right h2]

/-- C1 (amended): in `connect_with_retry` and `connect_mqtt_with_retry`,
for every initial delay `d0 ≤ 60` and every `k ≥ 0`, the delay slept before
the `(k+1)`-th retry equals `min(d0 * 1.5^k, 60)`, and no slept delay
exceeds 60 seconds. (For `d0 > 60` the first sleep is `d0` itself, see the
counterexample.) -/
theorem connect_retry_delay_formula (d0 : ℚ) (k : ℕ) (h : d0 ≤ 60) :
    sleptDelay d0 k = min (d0 * 1.5 ^ k) 60 ∧ sleptDelay d0 k ≤ 60 := by
  have key : sleptDelay d0 k = min (d0 * 1.5 ^ k) 60 := by
    induction k with
    | zero => simp [sleptDelay, min_eq_left h]
    | succ k ih =>
      rw [sleptDelay, ih, nextDelay_min, pow_succ, mul_assoc]
  exact ⟨key, key ▸ min_le_right _ _⟩

/-- C1 counterexample: with initial delay `d0 = 100` the first slept delay
is 100, which exceeds 60 and differs from `min(100 * 1.5^0, 60) = 60`: the
code only applies the 60-second cap from the second sleep on. -/
theorem connect_retry_delay_claim_cex :
    sleptDelay 100 0 = 100 ∧ ¬ sleptDelay 100 0 ≤ 60 ∧
      sleptDelay 100 0 ≠ min (100 * 1.5 ^ (0 : ℕ)) 60 := by
  norm_num [sleptDelay]

/-- Witness for `connect_retry_delay_formula` at `d0 = 1`, `k = 3`. -/
theorem connect_retry_delay_formula_witness :
    sleptDelay 1 3 = min ((1 : ℚ) * 1.5 ^ (3 : ℕ)) 60 ∧ sleptDelay 1 3 ≤ 60 :=
  connect_retry_delay_formula 1 3 (by norm_num)

theorem retryFrom_true_iff (ok : ℕ → Bool) :
    ∀ remaining attempt, retryFrom ok attempt remaining = true ↔
      ∃ i, i < remaining ∧ ok (attempt + i) = true := by
  intro remaining
  induction remaining with
  | zero => intro a; simp [retryFrom]
  | succ r ih =>
    intro a
    rw [retryFrom]
    cases hok : ok a with
    | true =>
      rw [if_pos rfl]
      exact ⟨fun _ => ⟨0, Nat.succ_pos r, by simpa using hok⟩, fun _ => rfl⟩
    | false =>
      rw [if_neg (by simp)]
      rw [ih (a + 1)]
      constructor
      · rintro ⟨i, hi, hoki⟩
        exact ⟨i + 1, by omega, by rwa [show a + (i + 1) = a + 1 + i by omega]⟩
      · rintro ⟨i, hi, hoki⟩
        cases i with
        | zero => rw [Nat.add_zero] at hoki; rw [hok] at hoki; exact absurd hoki (by simp)
        | succ j => exact ⟨j, by omega, by rwa [show a + 1 + j = a + (j + 1) by omega]⟩

theorem retryAttempts_le (ok : ℕ → Bool) :
    ∀ remaining attempt, retryAttempts ok attempt remaining ≤ remaining := by
  intro remaining
  induction remaining with
  | zero => intro a; simp [retryAttempts]
  | succ r ih =>
    intro a
    rw [retryAttempts]
    cases hok : ok a with
    | true =>
      rw [if_pos rfl]
      omega
    | false =>
      rw [if_neg (by simp)]
      have := ih (a + 1)
      omega

theorem retryAttempts_first (ok : ℕ → Bool) :
    ∀ remaining attempt i, i < remaining → ok (attempt + i) = true →
      (∀ j, j < i → ok (attempt + j) = false) →
      retryAttempts ok attempt remaining = i + 1 := by
  intro remaining
  induction remaining with
  | zero => intro a i hi _ _; omega
  | succ r ih =>
    intro a i hi hok hfirst
    rw [retryAttempts]
    cases i with
    | zero =>
      rw [Nat.add_zero] at hok
      rw [if_pos hok]
    | succ j =>
      have ha : ok a = false := by
        have := hfirst 0 (Nat.succ_pos j)
        simpa using this
      rw [if_neg (by simp [ha])]
      have := ih (a + 1) j (by omega)
        (by rwa [show a + 1 + j = a + (j + 1) by omega])
        (fun m hm => by
          rw [show a + 1 + m = a + (m + 1) by omega]
          exact hfirst (m + 1) (by omega))
      omega

/-- C2: `connect_with_retry` with `max_retries = N` invokes the connect
attempt at most `N + 1` times; it returns true iff some attempt among the
first `N + 1` succeeds (and the attempts stop at the first success: if the
first success is attempt `i`, exactly `i + 1` attempts are made); it
returns false iff all of the first `N + 1` attempts raise a transient
network error. -/
theorem connect_retry_bounded_spec (ok : ℕ → Bool) (N : ℕ) :
    connectAttempts ok N ≤ N + 1 ∧
    (connect_with_retry ok N = true ↔ ∃ i, i ≤ N ∧ ok i = true) ∧
    (connect_with_retry ok N = false ↔ ∀ i, i ≤ N → ok i = false) ∧
    (∀ i, i ≤ N → ok i = true → (∀ j, j < i → ok j = false) →
      connectAttempts ok N = i + 1) := by
  have htrue : connect_with_retry ok N = true ↔ ∃ i, i ≤ N ∧ ok i = true := by
    rw [connect_with_retry, retryFrom_true_iff]
    constructor
    · rintro ⟨i, hi, hoki⟩
      exact ⟨i, by omega, by simpa using hoki⟩
    · rintro ⟨i, hi, hoki⟩
      exact ⟨i, by omega, by simpa using hoki⟩
  refine ⟨retryAttempts_le ok (N + 1) 0, htrue, ?_, ?_⟩
  · rw [← Bool.not_eq_true, htrue]
    push_neg
    constructor
    · intro h i hi
      have := h i hi
      simpa using this
    · intro h i hi
      simp [h i hi]
  · intro i hi hok hfirst
    exact retryAttempts_first ok (N + 1) 0 i (by omega) (by simpa using hok)
      (fun j hj => by simpa using hfirst j hj)

/-- Witness for `connect_retry_bounded_spec`: with the first success at
attempt 2 and `max_retries = 5`, exactly 3 attempts are made. -/
theorem connect_retry_bounded_spec_witness :
    connectAttempts (fun i => decide (i = 2)) 5 = 2 + 1 :=
  (connect_retry_bounded_spec (fun i => decide (i = 2)) 5).2.2.2 2 (by norm_num)
    (by decide) (by decide)

theorem retryNone_ne_false (ok : ℕ → Bool) :
    ∀ fuel attempt, retryNone ok attempt fuel ≠ some false := by
  intro fuel
  induction fuel with
  | zero => intro a; simp [retryNone]
  | succ f ih =>
    intro a
    rw [retryNone]
    cases hok : ok a with
    | true => simp
    | false =>
      simp only [Bool.false_eq_true, if_false]
      exact ih (a + 1)

theorem retryNone_finds (ok : ℕ → Bool) :
    ∀ i attempt, ok (attempt + i) = true →
      ∃ fuel, retryNone ok attempt fuel = some true := by
  intro i
  induction i with
  | zero =>
    intro a h
    rw [Nat.add_zero] at h
    exact ⟨1, by simp [retryNone, h]⟩
  | succ j ih =>
    intro a h
    cases hok : ok a with
    | true => exact ⟨1, by simp [retryNone, hok]⟩
    | false =>
      obtain ⟨fuel, hf⟩ := ih (a + 1) (by rwa [show a + 1 + j = a + (j + 1) by omega])
      refine ⟨fuel + 1, ?_⟩
      rw [retryNone]
      simpa [hok] using hf

/-- C3: `connect_with_retry` with `max_retries=None` never returns false:
no amount of fuel makes the loop produce `false`, and under the
precondition that some attempt eventually succeeds (finitely many
transient failures followed by a success) the loop terminates with `true`
(some fuel suffices). -/
theorem connect_retry_unbounded_spec (ok : ℕ → Bool) :
    (∀ fuel, retryNone ok 0 fuel ≠ some false) ∧
    ((∃ i, ok i = true) → ∃ fuel, retryNone ok 0 fuel = some true) := by
  refine ⟨fun fuel => retryNone_ne_false ok fuel 0, ?_⟩
  rintro ⟨i, hi⟩
  exact retryNone_finds ok i 0 (by simpa using hi)

/-- Witness for `connect_retry_unbounded_spec`: attempts 0 fails, attempt 1
succeeds, and the unbounded loop reaches `true`. -/
theorem connect_retry_unbounded_spec_witness :
    ∃ fuel, retryNone (fun i => decide (1 ≤ i)) 0 fuel = some true :=
  (connect_retry_unbounded_spec (fun i => decide (1 ≤ i))).2 ⟨1, by decide⟩

theorem set_eq_self_of_getElem {α : Type} (l : List α) (i : ℕ) (v : α)
    (h : l[i]? = some v) : l.set i v = l := by
  induction l generalizing i with
  | nil => simp at h
  | cons a t ih =>
    cases i with
    | zero => simp_all
    | succ j => simp_all

theorem set3_set3 (f : List ℕ) (a1 a2 a3 b1 b2 b3 : ℕ) :
    set3 (set3 f a1 a2 a3) b1 b2 b3 = set3 f b1 b2 b3 := by
  rcases f with _ | ⟨x, _ | ⟨y, _ | ⟨z, t⟩⟩⟩ <;> rfl

/-- C4: for every DMX handler state whose frame channels 1-3 hold exactly
the values derived from the retained colour and brightness (which is what
every hardware-writing command of this handler establishes), executing the
off command followed by the on command, with no intervening colour or
brightness command, leaves the frame buffer exactly as it was before the
off command (channels 4-512 are never touched by the switch callback). -/
theorem dmx_off_on_roundtrip (s : DMXState)
    (h0 : s.dmx_frame[0]? = some (scale (getRGB s).1 (getBrightness s)))
    (h1 : s.dmx_frame[1]? = some (scale (getRGB s).2.1 (getBrightness s)))
    (h2 : s.dmx_frame[2]? = some (scale (getRGB s).2.2 (getBrightness s))) :
    (switch_callback (switch_callback s false) true).dmx_frame = s.dmx_frame := by
  have hframe : (switch_callback (switch_callback s false) true).dmx_frame =
      set3 (set3 s.dmx_frame 0 0 0) (scale (getRGB s).1 (getBrightness s))
        (scale (getRGB s).2.1 (getBrightness s)) (scale (getRGB s).2.2 (getBrightness s)) := by
    simp [switch_callback, getRGB, getBrightness]
  rw [hframe, set3_set3]
  unfold set3
  rw [set_eq_self_of_getElem _ _ _ h0, set_eq_self_of_getElem _ _ _ h1,
    set_eq_self_of_getElem _ _ _ h2]

set_option maxRecDepth 8000

/-- Witness for `dmx_off_on_roundtrip`: retained colour `(200, 100, 50)`,
retained brightness 80, frame channels 1-3 holding the scaled values
`(160, 80, 40)`. -/
theorem dmx_off_on_roundtrip_witness :
    (switch_callback (switch_callback
        ⟨set3 (List.replicate 512 0) 160 80 40, some true, some (200, 100, 50),
          some 80, [], []⟩ false) true).dmx_frame =
      set3 (List.replicate 512 0) 160 80 40 :=
  dmx_off_on_roundtrip
    ⟨set3 (List.replicate 512 0) 160 80 40, some true, some (200, 100, 50), some 80, [], []⟩
    (by decide) (by decide) (by decide)

/-- C5 counterexample: in the on state with retained colour `(200,100,50)`,
the brightness command 150 makes the handler write the frame whose channels
1-3 are `(300, 150, 75)` = `(int(200*150/100), int(100*150/100),
int(50*150/100))`, not the claimed `(round(200*150/255), round(100*150/255),
round(50*150/255)) = (118, 59, 29)`: the code scales by `new_state / 100.0`
(the Light component's 0-100 brightness range), not by `/255`. -/
theorem dmx_brightness150_cex :
    ((brightness_callback
        ⟨List.replicate 512 0, some true, some (200, 100, 50), some 100, [], []⟩
        150).writes.map (fun f => f.take 3)) = [[300, 150, 75]] ∧
      [[(300 : ℕ), 150, 75]] ≠ [[118, 59, 29]] := by
  constructor
  · decide
  · decide

/-- C5 (amended): in the on state with retained colour `(200,100,50)`, a
brightness command of 150 — interpreted by the code on the Light
component's 0-100 brightness scale, with `int()` truncation — produces the
single hardware frame write whose channels 1-3 are
`(int(200*150/100), int(100*150/100), int(50*150/100)) = (300, 150, 75)`,
and publishes the new brightness. -/
theorem dmx_brightness150_scale :
    ((brightness_callback
        ⟨List.replicate 512 0, some true, some (200, 100, 50), some 100, [], []⟩
        150).writes.map (fun f => f.take 3)) =
        [[scale 200 150, scale 100 150, scale 50 150]] ∧
      scale 200 150 = 300 ∧ scale 100 150 = 150 ∧ scale 50 150 = 75 ∧
      (brightness_callback
        ⟨List.replicate 512 0, some true, some (200, 100, 50), some 100, [], []⟩
        150).published = [DMXPublish.brightness 150] := by
  refine ⟨by decide, by decide, by decide, by decide, by decide⟩

/-- C10: every colour or brightness command received while the retained
switch state is off updates the retained state and republishes it, but
performs no hardware write and leaves the whole frame buffer unchanged. -/
theorem dmx_commands_while_off (s : DMXState) (v : ℕ × ℕ × ℕ) (w : ℕ)
    (h : s.state_switch = some false) :
    (rgb_callback s v).dmx_frame = s.dmx_frame ∧
    (rgb_callback s v).writes = s.writes ∧
    (rgb_callback s v).state_rgb = some v ∧
    (rgb_callback s v).published = s.published ++ [DMXPublish.rgb v] ∧
    (brightness_callback s w).dmx_frame = s.dmx_frame ∧
    (brightness_callback s w).writes = s.writes ∧
    (brightness_callback s w).state_brightness = some w ∧
    (brightness_callback s w).published = s.published ++ [DMXPublish.brightness w] := by
  unfold rgb_callback brightness_callback
  simp [getSwitch, h]

/-- Witness for `dmx_commands_while_off` at a concrete off state. -/
theorem dmx_commands_while_off_witness :
    (rgb_callback ⟨[1, 2, 3], some false, none, none, [], []⟩ (9, 9, 9)).writes =
      DMXState.writes ⟨[1, 2, 3], some false, none, none, [], []⟩ :=
  (dmx_commands_while_off ⟨[1, 2, 3], some false, none, none, [], []⟩ (9, 9, 9) 42 rfl).2.1

/-- C6: with a 512-slot frame, a fixture-range write at a valid 1-based
offset `o` (`1 ≤ o ≤ 510`) sets exactly the three channels `o, o+1, o+2`
(0-based indices `o-1, o, o+1`) to `r, g, b`, leaves every other channel
unchanged, and sends exactly one hardware frame; at an invalid offset the
state — frame buffer and hardware write log included — is left entirely
unchanged. -/
theorem dmx_set_rgb_fixture_frame_effect (s : DMXState) (start_channel : ℤ) (r g b : ℕ)
    (hlen : s.dmx_frame.length = 512) :
    ((1 ≤ start_channel ∧ start_channel ≤ 510) →
      (set_rgb_fixture s start_channel r g b).dmx_frame[start_channel.toNat - 1]? = some r ∧
      (set_rgb_fixture s start_channel r g b).dmx_frame[start_channel.toNat]? = some g ∧
      (set_rgb_fixture s start_channel r g b).dmx_frame[start_channel.toNat + 1]? = some b ∧
      (∀ j, j ≠ start_channel.toNat - 1 → j ≠ start_channel.toNat →
        j ≠ start_channel.toNat + 1 →
        (set_rgb_fixture s start_channel r g b).dmx_frame[j]? = s.dmx_frame[j]?) ∧
      (set_rgb_fixture s start_channel r g b).writes =
        s.writes ++ [(set_rgb_fixture s start_channel r g b).dmx_frame]) ∧
    (¬(1 ≤ start_channel ∧ start_channel ≤ 510) →
      set_rgb_fixture s start_channel r g b = s) := by
  constructor
  · intro hvalid
    have hi1 : 1 ≤ start_channel.toNat := by omega
    have hi2 : start_channel.toNat ≤ 510 := by omega
    unfold set_rgb_fixture
    rw [if_pos hvalid]
    refine ⟨?_, ?_, ?_, ?_, rfl⟩
    · rw [List.getElem?_set_ne (by omega), List.getElem?_set_ne (by omega),
        List.getElem?_set_self (by simp [hlen]; omega)]
    · rw [List.getElem?_set_ne (by omega), List.getElem?_set_self (by simp [hlen]; omega)]
    · rw [List.getElem?_set_self (by simp [hlen]; omega)]
    · intro j hj1 hj2 hj3
      rw [List.getElem?_set_ne (by omega), List.getElem?_set_ne (by omega),
        List.getElem?_set_ne (by omega)]
  · intro hinvalid
    unfold set_rgb_fixture
    rw [if_neg hinvalid]

theorem lcdWriteOps_length_le (ls : List String) :
    ∀ n, (lcdWriteOps n ls).length ≤ ls.length := by
  induction ls with
  | nil => intro n; simp [lcdWriteOps]
  | cons l rest ih =>
    intro n
    rw [lcdWriteOps]
    have := ih (n + 1)
    by_cases h : l = "" <;> simp [h] <;> omega

theorem lcdWriteOps_mem (ls : List String) :
    ∀ n op, op ∈ lcdWriteOps n ls →
      ∃ i l, ls[i]? = some l ∧ l ≠ "" ∧ op = LCDOp.writeLine (n + i) 0 (truncate21 l) := by
  induction ls with
  | nil => intro n op h; simp [lcdWriteOps] at h
  | cons l rest ih =>
    intro n op h
    rw [lcdWriteOps] at h
    by_cases he : l = ""
    · rw [if_pos he] at h
      rw [List.nil_append] at h
      obtain ⟨i, l', hl, hne, hop⟩ := ih (n + 1) op h
      exact ⟨i + 1, l', by simpa using hl, hne,
        by rw [hop, show n + (i + 1) = n + 1 + i by omega]⟩
    · rw [if_neg he] at h
      rcases List.mem_cons.mp h with hop | h
      · exact ⟨0, l, by simp, he, by simpa using hop⟩
      · obtain ⟨i, l', hl, hne, hop⟩ := ih (n + 1) op h
        exact ⟨i + 1, l', by simpa using hl, hne,
          by rw [hop, show n + (i + 1) = n + 1 + i by omega]⟩

theorem runOps_no_fail (ops : List LCDOp) :
    ∀ i, runOps (fun _ => false) i ops = (ops, true, i + ops.length) := by
  induction ops with
  | nil => intro i; simp [runOps]
  | cons op rest ih =>
    intro i
    rw [runOps]
    simp [ih (i + 1)]
    omega

/-- C7: on an inbound text command with no hardware failure, the handler
executes exactly one clear followed by the line writes of the first 4
lines of the input: at most 4 lines are written, every written line is a
non-empty line among the input's first 4, and the text sent for it is its
first 21 characters. -/
theorem lcd_display_command_shape (s : LCDState) (new_state : String) :
    (display_callback (fun _ => false) s new_state).hw =
      s.hw ++ LCDOp.clear :: lcdWriteOps 0 ((displayLines new_state).take 4) ∧
    (lcdWriteOps 0 ((displayLines new_state).take 4)).length ≤ 4 ∧
    (∀ op, op ∈ lcdWriteOps 0 ((displayLines new_state).take 4) →
      ∃ i l, i < 4 ∧ (displayLines new_state)[i]? = some l ∧ l ≠ "" ∧
        op = LCDOp.writeLine i 0 (truncate21 l)) := by
  refine ⟨?_, ?_, ?_⟩
  · simp [display_callback, runOps_no_fail, tryOps]
  · calc (lcdWriteOps 0 ((displayLines new_state).take 4)).length
        ≤ ((displayLines new_state).take 4).length := lcdWriteOps_length_le _ 0
      _ ≤ 4 := by simp
  · intro op hop
    obtain ⟨i, l, hl, hne, hopeq⟩ := lcdWriteOps_mem _ 0 op hop
    rw [List.getElem?_take] at hl
    have hi : i < 4 := by
      by_contra hge
      rw [if_neg hge] at hl
      simp at hl
    rw [if_pos hi] at hl
    exact ⟨i, l, hi, hl, hne, by simpa using hopeq⟩

/-- Witness for `lcd_display_command_shape`: a 5-line input whose first
line has 30 characters; the write sent for the first line is its 21-char
prefix. -/
theorem lcd_display_command_shape_witness :
    ∃ i l, i < 4 ∧
      (displayLines "abcdefghijklmnopqrstuvwxyz1234\\nb\\n\\nd\\ne")[i]? = some l ∧
      l ≠ "" ∧
      LCDOp.writeLine 0 0 "abcdefghijklmnopqrstu" = LCDOp.writeLine i 0 (truncate21 l) :=
  (lcd_display_command_shape ⟨"", [], []⟩ "abcdefghijklmnopqrstuvwxyz1234\\nb\\n\\nd\\ne").2.2
    (LCDOp.writeLine 0 0 "abcdefghijklmnopqrstu") (by decide)

/-- C8 counterexample: the claim fails when the recovery write itself
fails. With the clear succeeding, the write of the requested text failing
and the recovery `write_line(0, 0, 'Fail to write LCD')` failing too, the
exception from the recovery write escapes to `print_exception_decorator`
before `set_state` and `poll()` run: the shadow state keeps its old value
and nothing at all is published — the display and shadow state are not
forced to the failure message. -/
theorem lcd_failure_claim_cex :
    (runOps (fun i => decide (1 ≤ i)) 0 (tryOps "hello")).2.1 = false ∧
    (display_callback (fun i => decide (1 ≤ i)) ⟨"old", [], []⟩ "hello").display_state = "old" ∧
    (display_callback (fun i => decide (1 ≤ i)) ⟨"old", [], []⟩ "hello").published = [] := by
  refine ⟨by decide, by decide, by decide⟩

/-- C8 (amended): if a hardware write during a text command fails and the
recovery write of the failure message succeeds, the handler forces the
shadow state to `'Fail to write LCD'`, writes it to the display, and
publishes exactly the failure message; if the recovery write also fails,
nothing is set or published. In every failed command, the requested text
is never published: the publish log grows by at most the failure
message. -/
theorem lcd_failure_forces_failmsg (fails : ℕ → Bool) (s : LCDState) (new_state : String)
    (hfail : (runOps fails 0 (tryOps new_state)).2.1 = false) :
    (fails (runOps fails 0 (tryOps new_state)).2.2 = false →
      (display_callback fails s new_state).display_state = failMsg ∧
      (display_callback fails s new_state).published = s.published ++ [failMsg] ∧
      (display_callback fails s new_state).hw =
        s.hw ++ (runOps fails 0 (tryOps new_state)).1 ++ [LCDOp.writeLine 0 0 failMsg]) ∧
    (fails (runOps fails 0 (tryOps new_state)).2.2 = true →
      display_callback fails s new_state =
        { s with hw := s.hw ++ (runOps fails 0 (tryOps new_state)).1 }) ∧
    ((display_callback fails s new_state).published = s.published ∨
      (display_callback fails s new_state).published = s.published ++ [failMsg]) := by
  have hd : display_callback fails s new_state =
      if fails (runOps fails 0 (tryOps new_state)).2.2 then
        { s with hw := s.hw ++ (runOps fails 0 (tryOps new_state)).1 }
      else
        { s with hw := s.hw ++ (runOps fails 0 (tryOps new_state)).1 ++
                   [LCDOp.writeLine 0 0 failMsg],
                 display_state := failMsg,
                 published := s.published ++ [failMsg] } := by
    simp [display_callback, hfail]
  cases hb : fails (runOps fails 0 (tryOps new_state)).2.2 with
  | false =>
    rw [hb] at hd
    simp only [Bool.false_eq_true, if_false] at hd
    refine ⟨fun _ => ⟨by rw [hd], by rw [hd], by rw [hd]⟩, fun hc => by simp at hc, ?_⟩
    right
    rw [hd]
  | true =>
    rw [hb] at hd
    simp only [if_true] at hd
    refine ⟨fun hc => by simp at hc, fun _ => hd, ?_⟩
    left
    rw [hd]

/-- Witness for `lcd_failure_forces_failmsg`: the write of the requested
text fails, the recovery write succeeds, and the failure message is forced
and published. -/
theorem lcd_failure_forces_failmsg_witness :
    (display_callback (fun i => decide (i = 1)) ⟨"old", [], []⟩ "hello").display_state = failMsg ∧
    (display_callback (fun i => decide (i = 1)) ⟨"old", [], []⟩ "hello").published =
      ["Fail to write LCD"] := by
  have h := lcd_failure_forces_failmsg (fun i => decide (i = 1)) ⟨"old", [], []⟩ "hello"
    (by decide)
  exact ⟨(h.1 (by decide)).1, (h.1 (by decide)).2.1⟩

theorem enumCycles_length (k : ℕ) : (enumCycles k).length = 2 * k + 1 := by
  induction k with
  | zero => rfl
  | succ k ih =>
    rw [enumCycles, List.length_cons, List.length_cons, ih]
    omega

theorem enumCycles_fail_index (k : ℕ) :
    ∀ i, (enumCycles k)[i]? = some LoopEvent.enumerateFail → i = 2 * k := by
  induction k with
  | zero =>
    intro i h
    rw [enumCycles] at h
    cases i with
    | zero => omega
    | succ j => simp at h
  | succ k ih =>
    intro i h
    rw [enumCycles] at h
    cases i with
    | zero => simp at h
    | succ i1 =>
      cases i1 with
      | zero => simp at h
      | succ j =>
        have := ih j (by simpa using h)
        omega

theorem operateSegment_length (n k : ℕ) : (operateSegment n k).length = 2 * k + 4 := by
  rw [operateSegment, List.length_cons, List.length_append, enumCycles_length]
  simp

theorem operateSegment_fail_index (n k : ℕ) :
    ∀ i, (operateSegment n k)[i]? = some LoopEvent.enumerateFail → i = 2 * k + 1 := by
  intro i h
  rw [operateSegment] at h
  cases i with
  | zero => simp at h
  | succ j =>
    rw [List.getElem?_cons_succ] at h
    by_cases hj : j < (enumCycles k).length
    · rw [List.getElem?_append_left hj] at h
      have := enumCycles_fail_index k j h
      omega
    · rw [List.getElem?_append_right (by omega)] at h
      rcases hm : j - (enumCycles k).length with _ | (_ | m) <;> rw [hm] at h <;> simp at h

theorem operateSegment_getElem_disc (n k : ℕ) :
    (operateSegment n k)[2 * k + 2]? = some (LoopEvent.hwDisconnect n) := by
  rw [operateSegment, List.getElem?_cons_succ,
    List.getElem?_append_right (by rw [enumCycles_length]), enumCycles_length]
  simp

theorem operateSegment_getElem_sleep (n k : ℕ) :
    (operateSegment n k)[2 * k + 3]? = some (LoopEvent.sleepSec 1) := by
  rw [operateSegment, List.getElem?_cons_succ,
    List.getElem?_append_right (by rw [enumCycles_length]; omega), enumCycles_length]
  have e : 2 * k + 2 - (2 * k + 1) = 1 := by omega
  rw [e]
  rfl

theorem traceFrom_fail_followers (errs : ℕ → ℕ) :
    ∀ iters n i, (traceFrom errs n iters)[i]? = some LoopEvent.enumerateFail →
      ∃ h, (traceFrom errs n iters)[i + 1]? = some (LoopEvent.hwDisconnect h) ∧
        (traceFrom errs n iters)[i + 2]? = some (LoopEvent.sleepSec 1) ∧
        ((traceFrom errs n iters)[i + 3]? = none ∨
          (traceFrom errs n iters)[i + 3]? = some (LoopEvent.hwConnect (h + 1))) := by
  intro iters
  induction iters with
  | zero => intro n i h; simp [traceFrom] at h
  | succ it ih =>
    intro n i h
    rw [traceFrom] at h ⊢
    by_cases hlt : i < (operateSegment n (errs n)).length
    · rw [List.getElem?_append_left hlt] at h
      have hidx : i = 2 * errs n + 1 := operateSegment_fail_index n (errs n) i h
      subst hidx
      have hlen : (operateSegment n (errs n)).length = 2 * errs n + 4 :=
        operateSegment_length n (errs n)
      refine ⟨n, ?_, ?_, ?_⟩
      · rw [List.getElem?_append_left (by omega)]
        exact operateSegment_getElem_disc n (errs n)
      · rw [List.getElem?_append_left (by omega)]
        exact operateSegment_getElem_sleep n (errs n)
      · rw [List.getElem?_append_right (by omega)]
        have e0 : 2 * errs n + 1 + 3 - (operateSegment n (errs n)).length = 0 := by omega
        rw [e0]
        cases it with
        | zero => left; simp [traceFrom]
        | succ it2 =>
          right
          rw [traceFrom]
          simp [operateSegment]
    · push_neg at hlt
      rw [List.getElem?_append_right hlt] at h
      obtain ⟨hh, h1, h2, h3⟩ := ih (n + 1) (i - (operateSegment n (errs n)).length) h
      refine ⟨hh, ?_, ?_, ?_⟩
      · rw [List.getElem?_append_right (by omega),
          show i + 1 - (operateSegment n (errs n)).length =
            i - (operateSegment n (errs n)).length + 1 by omega]
        exact h1
      · rw [List.getElem?_append_right (by omega),
          show i + 2 - (operateSegment n (errs n)).length =
            i - (operateSegment n (errs n)).length + 2 by omega]
        exact h2
      · rw [List.getElem?_append_right (by omega),
          show i + 3 - (operateSegment n (errs n)).length =
            i - (operateSegment n (errs n)).length + 3 by omega]
        exact h3

theorem enumCycles_no_mqtt (k : ℕ) : LoopEvent.mqttConnect ∉ enumCycles k := by
  induction k with
  | zero => simp [enumCycles]
  | succ k ih => simp [enumCycles, ih]

theorem operateSegment_no_mqtt (n k : ℕ) : LoopEvent.mqttConnect ∉ operateSegment n k := by
  simp [operateSegment, enumCycles_no_mqtt k]

theorem traceFrom_no_mqtt (errs : ℕ → ℕ) :
    ∀ iters n, LoopEvent.mqttConnect ∉ traceFrom errs n iters := by
  intro iters
  induction iters with
  | zero => intro n; simp [traceFrom]
  | succ it ih =>
    intro n
    rw [traceFrom]
    simp only [List.mem_append]
    rintro (hmem | hmem)
    · exact operateSegment_no_mqtt n (errs n) hmem
    · exact ih (n + 1) hmem

/-- C9: along the transient-error path of `publish_loop`, the MQTT connect
operation occurs exactly once in the whole trace (only at startup, before
the outer loop), and every transient enumeration error is immediately
followed by the hardware disconnect of the current handle (failures
swallowed), then the fixed 1-second sleep, then — if the loop continues —
the hardware connect of a fresh handle (the next `IPConnection`, numbered
one higher); the MQTT connection is never re-established. -/
theorem bridge_loop_reconnect_path (errs : ℕ → ℕ) (iters : ℕ) :
    (publishLoopTrace errs iters).count LoopEvent.mqttConnect = 1 ∧
    ∀ i, (publishLoopTrace errs iters)[i]? = some LoopEvent.enumerateFail →
      ∃ h, (publishLoopTrace errs iters)[i + 1]? = some (LoopEvent.hwDisconnect h) ∧
        (publishLoopTrace errs iters)[i + 2]? = some (LoopEvent.sleepSec 1) ∧
        ((publishLoopTrace errs iters)[i + 3]? = none ∨
          (publishLoopTrace errs iters)[i + 3]? = some (LoopEvent.hwConnect (h + 1))) := by
  constructor
  · have h0 : (traceFrom errs 0 iters).count LoopEvent.mqttConnect = 0 :=
      List.count_eq_zero.mpr (traceFrom_no_mqtt errs iters 0)
    simp [publishLoopTrace, List.count_cons, h0]
  · intro i h
    rw [publishLoopTrace] at h ⊢
    cases i with
    | zero => simp at h
    | succ i1 =>
      cases i1 with
      | zero => simp at h
      | succ j =>
        rw [List.getElem?_cons_succ, List.getElem?_cons_succ] at h
        obtain ⟨hh, h1, h2, h3⟩ := traceFrom_fail_followers errs iters 0 j h
        refine ⟨hh, ?_, ?_, ?_⟩
        · rw [List.getElem?_cons_succ, List.getElem?_cons_succ]
          exact h1
        · rw [show j + 1 + 1 + 2 = j + 2 + 1 + 1 by omega,
            List.getElem?_cons_succ, List.getElem?_cons_succ]
          exact h2
        · rw [show j + 1 + 1 + 3 = j + 3 + 1 + 1 by omega,
            List.getElem?_cons_succ, List.getElem?_cons_succ]
          exact h3

/-- Witness for `bridge_loop_reconnect_path`: two outer iterations with an
immediate transient error each; the failure at trace position 3 is followed
by disconnect of handle 0, the 1-second sleep, and connect of handle 1. -/
theorem bridge_loop_reconnect_path_witness :
    ∃ h, (publishLoopTrace (fun _ => 0) 2)[4]? = some (LoopEvent.hwDisconnect h) ∧
      (publishLoopTrace (fun _ => 0) 2)[5]? = some (LoopEvent.sleepSec 1) ∧
      ((publishLoopTrace (fun _ => 0) 2)[6]? = none ∨
        (publishLoopTrace (fun _ => 0) 2)[6]? = some (LoopEvent.hwConnect (h + 1))) :=
  (bridge_loop_reconnect_path (fun _ => 0) 2).2 3 (by decide)

/-- Witness for `dmx_set_rgb_fixture_frame_effect`: offset 5 on a fresh
512-slot frame writes channels 5-7 and leaves channel 101 alone; offset 0
is rejected and leaves the state unchanged. -/
theorem dmx_set_rgb_fixture_frame_effect_witness :
    (set_rgb_fixture ⟨List.replicate 512 0, none, none, none, [], []⟩
        5 9 8 7).dmx_frame[(5 : ℤ).toNat - 1]? = some 9 ∧
    (set_rgb_fixture ⟨List.replicate 512 0, none, none, none, [], []⟩
        5 9 8 7).dmx_frame[100]? = (List.replicate 512 (0 : ℕ))[100]? ∧
    set_rgb_fixture ⟨List.replicate 512 0, none, none, none, [], []⟩ 0 9 8 7 =
      ⟨List.replicate 512 0, none, none, none, [], []⟩ :=
  ⟨((dmx_set_rgb_fixture_frame_effect ⟨List.replicate 512 0, none, none, none, [], []⟩
      5 9 8 7 (by simp)).1 (by decide)).1,
   ((dmx_set_rgb_fixture_frame_effect ⟨List.replicate 512 0, none, none, none, [], []⟩
      5 9 8 7 (by simp)).1 (by decide)).2.2.2.1 100 (by decide) (by decide) (by decide),
   (dmx_set_rgb_fixture_frame_effect ⟨List.replicate 512 0, none, none, none, [], []⟩
      0 9 8 7 (by simp)).2 (by decide)⟩
